import Mathlib

/-!
Shallow embedding of the weatherboss2 user router (src/users/router.js):
the registration validator, the registration workflow against the user
store, and the location/preference handlers. JavaScript values carried by
request bodies are modelled by `JsVal`, JSON response bodies by `Json`,
and the Mongo-backed user store by `World`. Store failures are modelled
by injected error fields on `World`, consumed by the operation that
would reject.
-/

/-- A JavaScript value as it can appear in a parsed JSON request body. -/
inductive JsVal where
  | str (s : String)
  | num (n : Int)
  | bool (b : Bool)
  | null
deriving Repr, DecidableEq

/-- A parsed request body (`req.body`): a mapping of field name to value. -/
abbrev Payload := List (String × JsVal)

/-- JavaScript `field in req.body`. -/
def fieldIn (p : Payload) (f : String) : Bool :=
  (p.lookup f).isSome

/-- JavaScript `req.body[field]` (`null` also stands for `undefined`;
the validator only reads values behind a presence or type guard). -/
def jsGet (p : Payload) (f : String) : JsVal :=
  (p.lookup f).getD JsVal.null

/-- JavaScript `typeof v === "string"`. -/
def isString : JsVal → Bool
  | .str _ => true
  | _ => false

/-- The string content of a value; the router only applies `.trim()` to
values already checked to be strings. -/
def asString : JsVal → String
  | .str s => s
  | _ => ""

/-- An error object of the router: the validation-error literals carry
`code`, `reason`, `message`, `location`; other rejection values need not. -/
structure Err where
  code : Nat
  reason : Option String
  message : String
  location : Option String
deriving Repr, DecidableEq

/-- The validation-error object literal the router builds
(`{code: 422, reason: "ValidationError", message, location}`). -/
def validationErr (message location : String) : Err :=
  { code := 422, reason := some "ValidationError",
    message := message, location := some location }

/-- router.js line 13: `const requiredFields = ["username", "password"]`. -/
def requiredFields : List String := ["username", "password"]

/-- router.js line 14: the first required field not in `req.body`. -/
def missingField (p : Payload) : Option String :=
  requiredFields.find? (fun field => !(fieldIn p field))

/-- router.js line 25: `const stringFields = ["username", "password"]`. -/
def stringFields : List String := ["username", "password"]

/-- router.js lines 26-28: the first field that is present yet not a string. -/
def nonStringField (p : Payload) : Option String :=
  stringFields.find? (fun field => fieldIn p field && !(isString (jsGet p field)))

/-- JavaScript `String.prototype.trim`: drop leading and trailing
whitespace, modelled structurally over the character list. -/
def jsTrim (s : String) : String :=
  String.mk (((s.data.dropWhile Char.isWhitespace).reverse.dropWhile
    Char.isWhitespace).reverse)

/-- router.js line 46: `const explicityTrimmedFields = ...` (sic). -/
def explicityTrimmedFields : List String := ["username", "password"]

/-- router.js lines 47-49: the first field whose value changes under trim. -/
def nonTrimmedField (p : Payload) : Option String :=
  explicityTrimmedFields.find?
    (fun field => jsTrim (asString (jsGet p field)) != asString (jsGet p field))

/-- router.js lines 60-70: the `min` entry of `sizedFields`. -/
def sizedFieldMin : String → Option Nat
  | "username" => some 1
  | "password" => some 4
  | _ => none

/-- router.js lines 60-70: the `max` entry of `sizedFields`
(bcrypt truncates after 72 characters). -/
def sizedFieldMax : String → Option Nat
  | "password" => some 72
  | _ => none

/-- `Object.keys(sizedFields)`. -/
def sizedFieldsKeys : List String := ["username", "password"]

/-- `req.body[field].trim().length`. -/
def trimmedLen (p : Payload) (f : String) : Nat :=
  (jsTrim (asString (jsGet p f))).length

/-- router.js lines 71-75: first field with a `min` bound whose trimmed
length is below it. -/
def tooSmallField (p : Payload) : Option String :=
  sizedFieldsKeys.find? (fun field =>
    match sizedFieldMin field with
    | some m => decide (trimmedLen p field < m)
    | none => false)

/-- router.js lines 76-80: first field with a `max` bound whose trimmed
length is above it. -/
def tooLargeField (p : Payload) : Option String :=
  sizedFieldsKeys.find? (fun field =>
    match sizedFieldMax field with
    | some m => decide (trimmedLen p field > m)
    | none => false)

/-- The four validation stages of router.post("/") (lines 12-91), each
returning its 422 error object at the first failure, in source order:
presence, string type, boundary whitespace, length bounds. -/
def validate (p : Payload) : Option Err :=
  match missingField p with
  | some f => some (validationErr "Missing field" f)
  | none =>
  match nonStringField p with
  | some f => some (validationErr "Incorrect field type: expected string" f)
  | none =>
  match nonTrimmedField p with
  | some f => some (validationErr "Cannot start or end with whitespace" f)
  | none =>
  match tooSmallField p, tooLargeField p with
  | some f, _ =>
    let m := (sizedFieldMin f).getD 0
    some (validationErr ("Must be at least " ++ toString m ++ " characters long") f)
  | none, some f =>
    let m := (sizedFieldMax f).getD 0
    some (validationErr ("Must be at most " ++ toString m ++ " characters long") f)
  | none, none => none

/-- A single validation failure as the spec describes it (section 4.1):
a kind, the offending field, and for length failures the violated bound. -/
inductive SpecFailure where
  | missingField (field : String)
  | invalidType (field : String)
  | untrimmedValue (field : String)
  | tooShort (field : String) (bound : Nat)
  | tooLong (field : String) (bound : Nat)
deriving Repr, DecidableEq

/-- The two payload fields the spec validator checks, in order. -/
def specFields : List String := ["username", "password"]

/-- Spec rule 1 (Presence): both keys must be present; otherwise
`MissingField` for the offending field. -/
def specPresence (p : Payload) : Option SpecFailure :=
  (specFields.find? (fun field => !(fieldIn p field))).map SpecFailure.missingField

/-- Spec rule 2 (Type): both fields, if present, must be string-typed. -/
def specType (p : Payload) : Option SpecFailure :=
  (specFields.find? (fun field => fieldIn p field && !(isString (jsGet p field)))).map
    SpecFailure.invalidType

/-- Spec rule 3 (No boundary whitespace): the raw value must equal its
trimmed form. -/
def specTrim (p : Payload) : Option SpecFailure :=
  (specFields.find?
    (fun field => jsTrim (asString (jsGet p field)) != asString (jsGet p field))).map
    SpecFailure.untrimmedValue

/-- Spec rule 4 lower bounds: username length at least 1, password at least 4. -/
def specMinBound : String → Option Nat
  | "username" => some 1
  | "password" => some 4
  | _ => none

/-- Spec rule 4 upper bounds: password length at most 72. -/
def specMaxBound : String → Option Nat
  | "password" => some 72
  | _ => none

/-- Spec rule 4 (Length bounds): evaluate ALL length checks after trimming;
if both a too-short and a too-long field exist simultaneously, report the
too-short one first (tie-break rule). -/
def specLength (p : Payload) : Option SpecFailure :=
  let shorts := specFields.filter (fun field =>
    match specMinBound field with
    | some m => decide (trimmedLen p field < m)
    | none => false)
  let longs := specFields.filter (fun field =>
    match specMaxBound field with
    | some m => decide (trimmedLen p field > m)
    | none => false)
  match shorts with
  | f :: _ => some (SpecFailure.tooShort f ((specMinBound f).getD 0))
  | [] =>
    match longs with
    | f :: _ => some (SpecFailure.tooLong f ((specMaxBound f).getD 0))
    | [] => none

/-- The Field Validator contract of spec section 4.1: either valid or the
single first violated rule, evaluated in the fixed order presence, type,
boundary whitespace, length bounds, stopping at the first failure. -/
def specValidate (p : Payload) : Option SpecFailure :=
  match specPresence p with
  | some f => some f
  | none =>
  match specType p with
  | some f => some f
  | none =>
  match specTrim p with
  | some f => some f
  | none => specLength p

/-- How a spec-level failure surfaces as the router's 422 error object. -/
def specFailureToErr : SpecFailure → Err
  | .missingField f => validationErr "Missing field" f
  | .invalidType f => validationErr "Incorrect field type: expected string" f
  | .untrimmedValue f => validationErr "Cannot start or end with whitespace" f
  | .tooShort f b =>
    validationErr ("Must be at least " ++ toString b ++ " characters long") f
  | .tooLong f b =>
    validationErr ("Must be at most " ++ toString b ++ " characters long") f

/-- A JSON value as sent in an HTTP response body. -/
inductive Json where
  | str (s : String)
  | num (n : Int)
  | bool (b : Bool)
  | null
  | arr (items : List Json)
  | obj (fields : List (String × Json))
deriving Repr

/-- Whether a JSON value is an object carrying the given key. -/
def Json.hasKey (j : Json) (key : String) : Bool :=
  match j with
  | .obj fields => fields.any (fun kv => kv.fst == key)
  | _ => false

/-- An HTTP response: status code and JSON body (`Json.null` for an
empty body, as after `res.status(404).end()`). -/
structure Response where
  status : Nat
  body : Json
deriving Repr

/-- What a handler does with a request: send a response, abort on a
thrown exception (no response ever sent), or merely log the error
(again no response sent). -/
inductive Outcome where
  | response (r : Response)
  | thrown (message : String)
  | loggedOnly
deriving Repr

/-- Whether an outcome sends an HTTP response at all. -/
def Outcome.isResponse : Outcome → Bool
  | .response _ => true
  | _ => false

/-- A location subdocument `{id, name}`; the store assigns `id` when the
entry is appended. -/
structure Location where
  id : Nat
  name : String
deriving Repr, DecidableEq

/-- Modelled from the spec: the persisted User record of spec section 3
(models.js is absent from the sources). Fields: store-assigned `id`,
`username`, `password` stored as the hash, the `locations` sequence, and
the `metric` preference; `metric` is kept as a raw JSON value so that
boolean-ness is a provable invariant rather than a typing artifact. -/
structure StoredUser where
  id : Nat
  username : String
  password : String
  locations : List Location
  metric : Json
deriving Repr

/-- The JSON rendering of one location entry. -/
def locationJson (l : Location) : Json :=
  Json.obj [("id", Json.num l.id), ("name", Json.str l.name)]

/-- Modelled from the spec: `user.serialize()` from the absent models.js.
Spec section 4.2, Serialize: a representation of the user that excludes
the password/hash field entirely. -/
def StoredUser.serialize (u : StoredUser) : Json :=
  Json.obj [("id", Json.num u.id), ("username", Json.str u.username),
    ("locations", Json.arr (u.locations.map locationJson)), ("metric", u.metric)]

/-- Modelled from the spec: `res.json(user)` on a raw stored record
(router.js line 138) serializes the record field by field; the record of
spec section 3 stores the `password` hash (router.js line 115 creates it
with one), and neither the spec nor the sources define any transform that
would drop a field from a raw record, so the hash is included. -/
def rawUserJson (u : StoredUser) : Json :=
  Json.obj [("id", Json.num u.id), ("username", Json.str u.username),
    ("password", Json.str u.password),
    ("locations", Json.arr (u.locations.map locationJson)), ("metric", u.metric)]

/-- Modelled from the spec: `User.hashPassword` from the absent models.js,
an irreversible bcrypt-family hash of the password; represented abstractly
as an injective tagging of the input. -/
def hashPassword (password : String) : String :=
  "bcrypt$" ++ password

/-- Modelled from the spec: the User schema of the absent models.js types
`metric` as a boolean flag (spec section 3), so the store coerces a written
value to a boolean; the coercion itself is represented by JavaScript
truthiness. -/
def mongooseCastBool : JsVal → Bool
  | .bool b => b
  | .str s => s != ""
  | .num n => n != 0
  | .null => false

/-- A store operation issued by a handler, for tracking which parts of the
store a request touches. -/
inductive StoreOp where
  | findCount (username : String)
  | create (username password : String)
  | findById (id : Nat)
  | findByIdAndUpdate (id : Nat)
deriving Repr, DecidableEq

/-- The user store plus injected failure modes: when an `...Err` field is
set, the corresponding store or hashing operation rejects with that error
instead of succeeding. -/
structure World where
  users : List StoredUser
  nextUserId : Nat
  nextLocId : Nat
  findErr : Option Err := none
  hashErr : Option Err := none
  createErr : Option Err := none
  updateErr : Option Err := none
deriving Repr

/-- The result of running one handler: its outcome, the store afterwards,
and the store operations it issued. -/
structure HandlerResult where
  outcome : Outcome
  world : World
  ops : List StoreOp
deriving Repr

/-- The JSON body of an error object, fields in the literal's insertion
order. -/
def errJson (e : Err) : Json :=
  Json.obj ([("code", Json.num e.code)] ++
    (match e.reason with | some r => [("reason", Json.str r)] | none => []) ++
    [("message", Json.str e.message)] ++
    (match e.location with | some l => [("location", Json.str l)] | none => []))

/-- The generic 500 body of router.js line 127. -/
def internalErrorBody : Json :=
  Json.obj [("code", Json.num 500), ("message", Json.str "Internal server error")]

/-- router.js lines 121-128: the catch handler of the registration chain.
A rejection whose `reason` is "ValidationError" is forwarded to the client
with its own code and body; anything else becomes the generic 500. -/
def catchHandler (e : Err) : Response :=
  if e.reason == some "ValidationError" then { status := e.code, body := errJson e }
  else { status := 500, body := internalErrorBody }

/-- `User.find({username}).count()` over the modelled store. -/
def usernameCount (w : World) (username : String) : Nat :=
  (w.users.filter (fun u => u.username == username)).length

/-- router.js lines 12-129, router.post("/"): validate, then check
uniqueness via find+count, hash the password, create the record, and
answer 201 with the serialized user; rejections reach the catch handler. -/
def register (p : Payload) (w : World) : HandlerResult :=
  match validate p with
  | some e =>
    { outcome := .response { status := 422, body := errJson e }, world := w, ops := [] }
  | none =>
    let username := asString (jsGet p "username")
    let password := asString (jsGet p "password")
    match w.findErr with
    | some e =>
      { outcome := .response (catchHandler e), world := w, ops := [.findCount username] }
    | none =>
      if usernameCount w username > 0 then
        { outcome := .response (catchHandler (validationErr "Username already taken" "username")),
          world := w, ops := [.findCount username] }
      else
        match w.hashErr with
        | some e =>
          { outcome := .response (catchHandler e), world := w, ops := [.findCount username] }
        | none =>
          let hash := hashPassword password
          match w.createErr with
          | some e =>
            { outcome := .response (catchHandler e), world := w,
              ops := [.findCount username, .create username hash] }
          | none =>
            let user : StoredUser :=
              { id := w.nextUserId, username := username, password := hash,
                locations := [], metric := Json.bool false }
            { outcome := .response { status := 201, body := user.serialize },
              world := { w with users := w.users ++ [user], nextUserId := w.nextUserId + 1 },
              ops := [.findCount username, .create username hash] }

/-- router.js lines 132-141, router.get("/:id"): answer 404 on a missing
user, else 200 with the raw record; the catch branch calls `next(err)`,
but `next` is not bound in the handler (the handler takes only req and
res), so under strict mode the catch itself throws a ReferenceError and
no response is sent. -/
def getUser (uid : Nat) (w : World) : HandlerResult :=
  match w.findErr with
  | some _ =>
    { outcome := .thrown "ReferenceError: next is not defined", world := w,
      ops := [.findById uid] }
  | none =>
    match w.users.find? (fun u => u.id == uid) with
    | none =>
      { outcome := .response { status := 404, body := Json.null }, world := w,
        ops := [.findById uid] }
    | some u =>
      { outcome := .response { status := 200, body := rawUserJson u }, world := w,
        ops := [.findById uid] }

/-- router.js lines 144-153, router.get("/locations/:id"): like getUser
but answering with `user.locations`; same unbound `next` in the catch. -/
def getLocations (uid : Nat) (w : World) : HandlerResult :=
  match w.findErr with
  | some _ =>
    { outcome := .thrown "ReferenceError: next is not defined", world := w,
      ops := [.findById uid] }
  | none =>
    match w.users.find? (fun u => u.id == uid) with
    | none =>
      { outcome := .response { status := 404, body := Json.null }, world := w,
        ops := [.findById uid] }
    | some u =>
      { outcome := .response { status := 200, body := Json.arr (u.locations.map locationJson) },
        world := w, ops := [.findById uid] }

/-- router.js lines 187-196, router.get("/metric/:id"): like getUser but
answering with `user.metric`; same unbound `next` in the catch. -/
def getMetric (uid : Nat) (w : World) : HandlerResult :=
  match w.findErr with
  | some _ =>
    { outcome := .thrown "ReferenceError: next is not defined", world := w,
      ops := [.findById uid] }
  | none =>
    match w.users.find? (fun u => u.id == uid) with
    | none =>
      { outcome := .response { status := 404, body := Json.null }, world := w,
        ops := [.findById uid] }
    | some u =>
      { outcome := .response { status := 200, body := u.metric }, world := w,
        ops := [.findById uid] }

/-- The targeted update documents the three mutators pass to
`findByIdAndUpdate`: `$push` on locations, `$pull` on locations,
`$set` on metric. -/
inductive UpdateDoc where
  | pushLocation (name : String)
  | pullLocation (locationId : Nat)
  | setMetric (value : JsVal)
deriving Repr

/-- The effect of one targeted update document on the matched record:
`$push` appends a location with the store-assigned id, `$pull` removes
every location entry whose id matches, `$set` overwrites metric with the
schema-coerced value. -/
def applyUpdate (doc : UpdateDoc) (locId : Nat) (u : StoredUser) : StoredUser :=
  match doc with
  | .pushLocation name => { u with locations := u.locations ++ [{ id := locId, name := name }] }
  | .pullLocation lid => { u with locations := u.locations.filter (fun l => l.id != lid) }
  | .setMetric v => { u with metric := Json.bool (mongooseCastBool v) }

/-- `User.findByIdAndUpdate(id, doc, {new: true})`: apply the targeted
update to the record with the given id (a no-op when no record matches)
and return the post-update record. -/
def findByIdAndUpdate (uid : Nat) (doc : UpdateDoc) (w : World) :
    Option StoredUser × World :=
  let users2 := w.users.map (fun u => if u.id == uid then applyUpdate doc w.nextLocId u else u)
  let bump := match doc with | .pushLocation _ => 1 | _ => 0
  (users2.find? (fun u => u.id == uid),
   { w with users := users2, nextLocId := w.nextLocId + bump })

/-- router.js lines 156-169, router.post("/newlocation/:id"): `$push` the
new `{name}` onto locations and `res.send` the updated record. The error
branch calls `console.err(err)`, but `console.err` does not exist, so the
branch itself throws a TypeError and no response is sent. -/
def addLocation (uid : Nat) (name : String) (w : World) : HandlerResult :=
  match w.updateErr with
  | some _ =>
    { outcome := .thrown "TypeError: console.err is not a function", world := w,
      ops := [.findByIdAndUpdate uid] }
  | none =>
    let res := findByIdAndUpdate uid (.pushLocation name) w
    { outcome := .response
        { status := 200,
          body := (match res.fst with | some u => rawUserJson u | none => Json.null) },
      world := res.snd, ops := [.findByIdAndUpdate uid] }

/-- router.js lines 172-185, router.delete("/deletelocation/:id"): `$pull`
the entry with the given locationId and `res.send` the updated record; the
error branch only does `console.log(err)` and sends nothing. -/
def removeLocation (uid : Nat) (lid : Nat) (w : World) : HandlerResult :=
  match w.updateErr with
  | some _ =>
    { outcome := .loggedOnly, world := w, ops := [.findByIdAndUpdate uid] }
  | none =>
    let res := findByIdAndUpdate uid (.pullLocation lid) w
    { outcome := .response
        { status := 200,
          body := (match res.fst with | some u => rawUserJson u | none => Json.null) },
      world := res.snd, ops := [.findByIdAndUpdate uid] }

/-- router.js lines 199-212, router.put("/metric/:id"): `$set` metric to
`req.body.metric` and `res.send` the updated record; the error branch only
does `console.log(err)` and sends nothing. -/
def setMetricPref (uid : Nat) (v : JsVal) (w : World) : HandlerResult :=
  match w.updateErr with
  | some _ =>
    { outcome := .loggedOnly, world := w, ops := [.findByIdAndUpdate uid] }
  | none =>
    let res := findByIdAndUpdate uid (.setMetric v) w
    { outcome := .response
        { status := 200,
          body := (match res.fst with | some u => rawUserJson u | none => Json.null) },
      world := res.snd, ops := [.findByIdAndUpdate uid] }

/-- The concrete scenario payload of spec section 8:
`{username: "bob", password: "secret1"}`. -/
def bobPayload : Payload := [("username", JsVal.str "bob"), ("password", JsVal.str "secret1")]

/-- A store with no users and no injected failures. -/
def emptyWorld : World := { users := [], nextUserId := 0, nextLocId := 0 }

/-- The uniqueness-scenario payload: `{username: "alice", password: "validpass"}`. -/
def alicePayload : Payload :=
  [("username", JsVal.str "alice"), ("password", JsVal.str "validpass")]

/-- An existing stored user named alice. -/
def aliceUser : StoredUser :=
  { id := 0, username := "alice", password := hashPassword "validpass",
    locations := [], metric := Json.bool false }

/-- A store already holding alice. -/
def aliceWorld : World := { users := [aliceUser], nextUserId := 1, nextLocId := 0 }

/-- An unexpected (non-validation) rejection value, as a driver error would be. -/
def boomErr : Err :=
  { code := 0, reason := none, message := "MongoError: topology was destroyed",
    location := none }

/-- The stages of the registration chain at which a rejection can originate
after validation: the uniqueness query, the password hashing, the creation. -/
inductive FailStage where
  | find
  | hash
  | create
deriving Repr, DecidableEq

/-- Inject a failure for the given stage into a store. -/
def injectErr (st : FailStage) (e : Err) (w : World) : World :=
  match st with
  | .find => { w with findErr := some e }
  | .hash => { w with hashErr := some e }
  | .create => { w with createErr := some e }

/-- Every field of a user record except `locations`. -/
def locFrame (u : StoredUser) : Nat × String × String × Json :=
  (u.id, u.username, u.password, u.metric)

/-- Every field of a user record except `metric`. -/
def metricFrame (u : StoredUser) : Nat × String × String × List Location :=
  (u.id, u.username, u.password, u.locations)

/-- The invariant of spec section 3: the stored `metric` value is a boolean. -/
def metricIsBool (u : StoredUser) : Prop :=
  ∃ b, u.metric = Json.bool b

/-- A 73-character password, one over the bcrypt truncation limit. -/
def longPassword : String := String.mk (List.replicate 73 'x')

/-- A payload whose username is too short while its password is
simultaneously too long. -/
def shortLongPayload : Payload :=
  [("username", JsVal.str ""), ("password", JsVal.str longPassword)]

/-- A payload missing its password field. -/
def noPasswordPayload : Payload := [("username", JsVal.str "bob")]

/-- The record that registering bobPayload against the empty store creates. -/
def bobUser : StoredUser :=
  { id := 0, username := "bob", password := hashPassword "secret1",
    locations := [], metric := Json.bool false }

/-- A store whose query and update operations all fail with a driver error. -/
def failWorld : World :=
  { users := [], nextUserId := 0, nextLocId := 0,
    findErr := some boomErr, updateErr := some boomErr }

/-- C1: a user created via Register and fetched via Get user never sees a
password field in the response. This FAILS on the code: the POST response
serializes via `user.serialize()` (no password key), but GET /:id sends
the raw stored record, which carries the password hash. Evaluated at the
concrete round trip of registering bob and fetching the new id 0. -/
theorem getUser_response_carries_password_hash :
    (register bobPayload emptyWorld).outcome =
      Outcome.response { status := 201, body := bobUser.serialize } ∧
    (bobUser.serialize).hasKey "password" = false ∧
    (getUser 0 (register bobPayload emptyWorld).world).outcome =
      Outcome.response { status := 200, body := rawUserJson bobUser } ∧
    (rawUserJson bobUser).hasKey "password" = true :=
  ⟨rfl, rfl, rfl, rfl⟩

/-- C5: a payload that fails field validation is answered with its 422
ValidationError before any store interaction: the handler issues no store
operation and leaves the store unchanged. -/
theorem register_validation_failure_no_store_access
    (p : Payload) (w : World) (e : Err) (h : validate p = some e) :
    register p w =
      { outcome := Outcome.response { status := 422, body := errJson e },
        world := w, ops := [] } := by
  unfold register
  rw [h]

/-- Witness for C5: a payload missing its password field, against a store
already holding a user. -/
theorem register_validation_failure_no_store_access_witness :
    validate noPasswordPayload = some (validationErr "Missing field" "password") ∧
    register noPasswordPayload aliceWorld =
      { outcome := Outcome.response
          { status := 422, body := errJson (validationErr "Missing field" "password") },
        world := aliceWorld, ops := [] } :=
  ⟨rfl, register_validation_failure_no_store_access noPasswordPayload aliceWorld
    (validationErr "Missing field" "password") rfl⟩

/-- C3: registering a valid payload whose exact trimmed username an
existing user already holds yields 422 with reason ValidationError,
location username and message "Username already taken", leaves the store
unchanged (no second record), and only issued the uniqueness query. -/
theorem register_duplicate_username (p : Payload) (w : World) (u : StoredUser)
    (hv : validate p = none) (hf : w.findErr = none)
    (hu : u ∈ w.users) (hname : u.username = asString (jsGet p "username")) :
    register p w =
      { outcome := Outcome.response
          { status := 422,
            body := errJson (validationErr "Username already taken" "username") },
        world := w, ops := [StoreOp.findCount (asString (jsGet p "username"))] } := by
  have hpos : usernameCount w (asString (jsGet p "username")) > 0 := by
    unfold usernameCount
    refine List.length_pos.mpr (List.ne_nil_of_mem (a := u) ?_)
    simp [List.mem_filter, hu, hname]
  unfold register
  rw [hv, hf]
  dsimp only
  rw [if_pos hpos]
  rfl

/-- Witness for C3: registering alice again over a store holding alice. -/
theorem register_duplicate_username_witness :
    validate alicePayload = none ∧
    aliceWorld.findErr = none ∧
    aliceUser ∈ aliceWorld.users ∧
    aliceUser.username = asString (jsGet alicePayload "username") ∧
    register alicePayload aliceWorld =
      { outcome := Outcome.response
          { status := 422,
            body := errJson (validationErr "Username already taken" "username") },
        world := aliceWorld,
        ops := [StoreOp.findCount (asString (jsGet alicePayload "username"))] } :=
  ⟨rfl, rfl, List.mem_singleton.mpr rfl, rfl,
    register_duplicate_username alicePayload aliceWorld aliceUser rfl rfl
      (List.mem_singleton.mpr rfl) rfl⟩

/-- C4: when, after trimming, one field is below its minimum while the
other is simultaneously above its maximum (username is the only field
without a maximum, password the only one with one, so this is a too-short
username with a too-long password), the length stage evaluates both
checks and reports the too-short field with its minimum bound of 1. -/
theorem length_bounds_tiebreak_reports_too_short (p : Payload)
    (h1 : missingField p = none) (h2 : nonStringField p = none)
    (h3 : nonTrimmedField p = none)
    (hshort : trimmedLen p "username" < 1)
    (hlong : trimmedLen p "password" > 72) :
    validate p = some (validationErr "Must be at least 1 characters long" "username") := by
  have hs : tooSmallField p = some "username" := by
    unfold tooSmallField sizedFieldsKeys
    simp [List.find?_cons, sizedFieldMin, hshort]
  have hl : tooLargeField p = some "password" := by
    unfold tooLargeField sizedFieldsKeys
    simp [List.find?_cons, sizedFieldMax, hlong]
  unfold validate
  rw [h1, h2, h3, hs, hl]
  rfl

/-- Witness for C4: empty username with a 73-character password. -/
theorem length_bounds_tiebreak_reports_too_short_witness :
    missingField shortLongPayload = none ∧
    nonStringField shortLongPayload = none ∧
    nonTrimmedField shortLongPayload = none ∧
    trimmedLen shortLongPayload "username" < 1 ∧
    trimmedLen shortLongPayload "password" > 72 ∧
    validate shortLongPayload =
      some (validationErr "Must be at least 1 characters long" "username") :=
  ⟨rfl, rfl, rfl, by decide, by decide,
    length_bounds_tiebreak_reports_too_short shortLongPayload rfl rfl rfl
      (by decide) (by decide)⟩

theorem specLength_eq (p : Payload) :
    specLength p =
      (match tooSmallField p, tooLargeField p with
       | some f, _ => some (SpecFailure.tooShort f ((specMinBound f).getD 0))
       | none, some f => some (SpecFailure.tooLong f ((specMaxBound f).getD 0))
       | none, none => none) := by
  by_cases h1 : trimmedLen p "username" < 1 <;>
  by_cases h2 : trimmedLen p "password" < 4 <;>
  by_cases h3 : trimmedLen p "password" > 72 <;>
  simp [specLength, tooSmallField, tooLargeField, specFields, sizedFieldsKeys,
        specMinBound, specMaxBound, sizedFieldMin, sizedFieldMax,
        List.filter_cons, List.find?_cons, h1, h2, h3]

theorem validate_eq_specValidate (p : Payload) :
    validate p = (specValidate p).map specFailureToErr := by
  unfold validate specValidate
  rw [show specPresence p = (missingField p).map SpecFailure.missingField from rfl,
      show specType p = (nonStringField p).map SpecFailure.invalidType from rfl,
      show specTrim p = (nonTrimmedField p).map SpecFailure.untrimmedValue from rfl,
      specLength_eq]
  cases hm : missingField p with
  | some f => rfl
  | none =>
    cases hs : nonStringField p with
    | some f => rfl
    | none =>
      cases ht : nonTrimmedField p with
      | some f => rfl
      | none =>
        cases hsm : tooSmallField p with
        | some f => rfl
        | none =>
          cases hlg : tooLargeField p with
          | some f => rfl
          | none => rfl

theorem specValidate_invalidType_present (p : Payload) (f : String)
    (hf : p.lookup f = none) :
    specValidate p ≠ some (SpecFailure.invalidType f) := by
  intro hcontra
  unfold specValidate specPresence specType specTrim at hcontra
  cases hq1 : specFields.find? (fun field => !(fieldIn p field)) <;>
    rw [hq1] at hcontra
  case some g => simp at hcontra
  case none =>
    cases hq2 : specFields.find?
        (fun field => fieldIn p field && !(isString (jsGet p field))) <;>
      rw [hq2] at hcontra
    case some g =>
      simp at hcontra
      have hpred := List.find?_some hq2
      rw [hcontra] at hpred
      simp [fieldIn, hf] at hpred
    case none =>
      cases hq3 : specFields.find?
          (fun field => jsTrim (asString (jsGet p field)) != asString (jsGet p field)) <;>
        rw [hq3] at hcontra
      case some g => simp at hcontra
      case none =>
        rw [specLength_eq] at hcontra
        cases hsm : tooSmallField p <;> cases hlg : tooLargeField p <;>
          rw [hsm, hlg] at hcontra <;> simp at hcontra

/-- C2: the validator reports exactly the first violated rule in the fixed
order presence, string type, boundary whitespace, length bounds (stated as
equality against the spec validator, which evaluates the rules in that
order and stops at the first failure), and a type-check failure is never
reported for a field that is absent from the payload, because the presence
check takes priority. -/
theorem validate_reports_first_violated_rule (p : Payload) :
    validate p = (specValidate p).map specFailureToErr ∧
    ∀ f, p.lookup f = none → specValidate p ≠ some (SpecFailure.invalidType f) :=
  ⟨validate_eq_specValidate p, fun f hf => specValidate_invalidType_present p f hf⟩

/-- Witness for C2: a payload with a non-string username and no password
key; the report is the missing password, never an invalid-type failure
for the absent field. -/
theorem validate_reports_first_violated_rule_witness :
    validate [("username", JsVal.num 7)] =
      (specValidate [("username", JsVal.num 7)]).map specFailureToErr ∧
    specValidate [("username", JsVal.num 7)] ≠ some (SpecFailure.invalidType "password") :=
  ⟨(validate_reports_first_violated_rule [("username", JsVal.num 7)]).1,
    (validate_reports_first_violated_rule [("username", JsVal.num 7)]).2 "password" rfl⟩

theorem catchHandler_forwards (e : Err) (h : e.reason = some "ValidationError") :
    catchHandler e = { status := e.code, body := errJson e } := by
  simp [catchHandler, h]

theorem catchHandler_opaque (e : Err) (h : e.reason ≠ some "ValidationError") :
    catchHandler e = { status := 500, body := internalErrorBody } := by
  simp [catchHandler, h]

/-- C6: after a valid payload passes validation, a rejection arising at
any stage of the chain (uniqueness query, hashing, creation) whose reason
is not ValidationError is answered with the generic
`{code: 500, message: "Internal server error"}` body, while a rejection
whose reason is ValidationError is forwarded to the caller unchanged with
its own code and full body (code, message, location). -/
theorem register_error_policy (p : Payload) (w0 : World) (st : FailStage) (e : Err)
    (hv : validate p = none) (hf : w0.findErr = none) (hh : w0.hashErr = none)
    (hcount : usernameCount w0 (asString (jsGet p "username")) = 0) :
    (e.reason ≠ some "ValidationError" →
      (register p (injectErr st e w0)).outcome =
        Outcome.response { status := 500, body := internalErrorBody }) ∧
    (e.reason = some "ValidationError" →
      (register p (injectErr st e w0)).outcome =
        Outcome.response { status := e.code, body := errJson e }) := by
  have hnotpos : ∀ w : World, w.users = w0.users →
      ¬ usernameCount w (asString (jsGet p "username")) > 0 := by
    intro w hw hcon
    unfold usernameCount at hcon hcount
    rw [hw] at hcon
    omega
  have hout : (register p (injectErr st e w0)).outcome =
      Outcome.response (catchHandler e) := by
    cases st with
    | find =>
      unfold register injectErr
      rw [hv]
    | hash =>
      unfold register injectErr
      rw [hv]
      dsimp only
      rw [hf]
      dsimp only
      split
      · next hcon => exact absurd hcon (hnotpos _ rfl)
      · rfl
    | create =>
      unfold register injectErr
      rw [hv]
      dsimp only
      rw [hf]
      dsimp only
      split
      · next hcon => exact absurd hcon (hnotpos _ rfl)
      · rw [hh]
  constructor
  · intro h
    rw [hout, catchHandler_opaque e h]
  · intro h
    rw [hout, catchHandler_forwards e h]

/-- Witness for C6: a driver error injected at the uniqueness query while
registering bob against the empty store; its reason is not
ValidationError, so the evaluated response is the opaque 500. -/
theorem register_error_policy_witness :
    validate bobPayload = none ∧
    emptyWorld.findErr = none ∧
    emptyWorld.hashErr = none ∧
    usernameCount emptyWorld (asString (jsGet bobPayload "username")) = 0 ∧
    (register bobPayload (injectErr FailStage.find boomErr emptyWorld)).outcome =
      Outcome.response { status := 500, body := internalErrorBody } :=
  ⟨rfl, rfl, rfl, rfl,
    (register_error_policy bobPayload emptyWorld FailStage.find boomErr
      rfl rfl rfl rfl).1 (by decide)⟩

theorem map_frame_of_update {β : Type} (fr : StoredUser → β) (g : StoredUser → StoredUser)
    (hg : ∀ u, fr (g u) = fr u) (uid : Nat) (l : List StoredUser) :
    (l.map (fun u => if u.id == uid then g u else u)).map fr = l.map fr := by
  induction l with
  | nil => rfl
  | cons a t ih =>
    simp only [List.map_cons, List.cons.injEq]
    constructor
    · split
      · exact hg a
      · rfl
    · exact ih

/-- C7: each of Add location, Remove location and Set metric preference is
a single targeted-field store operation: its operation trace is exactly
one findByIdAndUpdate (no separate read of the record), and every stored
user keeps every field other than the targeted one (the locations array
for the two location mutators, the metric flag for the preference
mutator) unchanged. -/
theorem mutators_update_only_target_field (uid : Nat) (name : String) (lid : Nat)
    (v : JsVal) (w : World) :
    ((addLocation uid name w).world.users.map locFrame = w.users.map locFrame ∧
      (addLocation uid name w).ops = [StoreOp.findByIdAndUpdate uid]) ∧
    ((removeLocation uid lid w).world.users.map locFrame = w.users.map locFrame ∧
      (removeLocation uid lid w).ops = [StoreOp.findByIdAndUpdate uid]) ∧
    ((setMetricPref uid v w).world.users.map metricFrame = w.users.map metricFrame ∧
      (setMetricPref uid v w).ops = [StoreOp.findByIdAndUpdate uid]) := by
  refine ⟨⟨?_, ?_⟩, ⟨?_, ?_⟩, ⟨?_, ?_⟩⟩
  · cases hu : w.updateErr with
    | some e => rw [addLocation, hu]
    | none =>
      rw [addLocation, hu]
      dsimp only
      show (w.users.map (fun u =>
          if u.id == uid then applyUpdate (UpdateDoc.pushLocation name) w.nextLocId u else u)).map
        locFrame = w.users.map locFrame
      exact map_frame_of_update locFrame
        (applyUpdate (UpdateDoc.pushLocation name) w.nextLocId) (fun u => rfl) uid w.users
  · cases hu : w.updateErr <;> simp [addLocation, hu]
  · cases hu : w.updateErr with
    | some e => rw [removeLocation, hu]
    | none =>
      rw [removeLocation, hu]
      dsimp only
      show (w.users.map (fun u =>
          if u.id == uid then applyUpdate (UpdateDoc.pullLocation lid) w.nextLocId u else u)).map
        locFrame = w.users.map locFrame
      exact map_frame_of_update locFrame
        (applyUpdate (UpdateDoc.pullLocation lid) w.nextLocId) (fun u => rfl) uid w.users
  · cases hu : w.updateErr <;> simp [removeLocation, hu]
  · cases hu : w.updateErr with
    | some e => rw [setMetricPref, hu]
    | none =>
      rw [setMetricPref, hu]
      dsimp only
      show (w.users.map (fun u =>
          if u.id == uid then applyUpdate (UpdateDoc.setMetric v) w.nextLocId u else u)).map
        metricFrame = w.users.map metricFrame
      exact map_frame_of_update metricFrame
        (applyUpdate (UpdateDoc.setMetric v) w.nextLocId) (fun u => rfl) uid w.users
  · cases hu : w.updateErr <;> simp [setMetricPref, hu]

theorem filter_self_idem (q : Location → Bool) (l : List Location) :
    (l.filter q).filter q = l.filter q := by
  simp [List.filter_filter]

theorem pull_twice (lid n1 n2 : Nat) (u : StoredUser) :
    applyUpdate (UpdateDoc.pullLocation lid) n2 (applyUpdate (UpdateDoc.pullLocation lid) n1 u) =
      applyUpdate (UpdateDoc.pullLocation lid) n1 u := by
  unfold applyUpdate
  dsimp only
  rw [filter_self_idem]

theorem map_pull_idem (uid lid n1 n2 : Nat) (l : List StoredUser) :
    ((l.map (fun u => if u.id == uid then applyUpdate (UpdateDoc.pullLocation lid) n1 u else u)).map
      (fun u => if u.id == uid then applyUpdate (UpdateDoc.pullLocation lid) n2 u else u)) =
    l.map (fun u => if u.id == uid then applyUpdate (UpdateDoc.pullLocation lid) n1 u else u) := by
  induction l with
  | nil => rfl
  | cons a t ih =>
    simp only [List.map_cons, List.cons.injEq]
    refine ⟨?_, ih⟩
    by_cases h : (a.id == uid) = true
    · rw [if_pos h,
        if_pos (show ((applyUpdate (UpdateDoc.pullLocation lid) n1 a).id == uid) = true from h),
        pull_twice]
    · rw [if_neg h, if_neg h]

/-- C8: removing the same locationId twice leaves the same store state as
removing it once; the second `$pull` matches no remaining entry and the
store is unchanged by it. -/
theorem removeLocation_idempotent (uid lid : Nat) (w : World) :
    (removeLocation uid lid (removeLocation uid lid w).world).world =
      (removeLocation uid lid w).world := by
  obtain ⟨users, nUserId, nLocId, fe, he, ce, ue⟩ := w
  cases ue with
  | some e => rfl
  | none =>
    show (World.mk
        ((users.map (fun u =>
            if u.id == uid then applyUpdate (UpdateDoc.pullLocation lid) nLocId u else u)).map
          (fun u =>
            if u.id == uid then applyUpdate (UpdateDoc.pullLocation lid) (nLocId + 0) u else u))
        nUserId ((nLocId + 0) + 0) fe he ce none) =
      World.mk
        (users.map (fun u =>
          if u.id == uid then applyUpdate (UpdateDoc.pullLocation lid) nLocId u else u))
        nUserId (nLocId + 0) fe he ce none
    rw [map_pull_idem]

theorem register_users_shape (p : Payload) (w : World) :
    (register p w).world.users = w.users ∨
    ∃ uN, (register p w).world.users = w.users ++ [uN] ∧ uN.metric = Json.bool false := by
  unfold register
  dsimp only
  repeat' split
  all_goals first
    | exact Or.inl rfl
    | exact Or.inr ⟨_, rfl, rfl⟩

/-- C9: the stored metric field is always a boolean: both operations that
write it, creation during Register (which stores the boolean default) and
Set metric preference with an arbitrary request-body value (which stores
the schema-coerced boolean), preserve the invariant over every user in
the store. -/
theorem metric_invariant_boolean (p : Payload) (uid : Nat) (v : JsVal) (w : World)
    (hinv : ∀ u ∈ w.users, metricIsBool u) :
    (∀ u ∈ (register p w).world.users, metricIsBool u) ∧
    (∀ u ∈ (setMetricPref uid v w).world.users, metricIsBool u) := by
  constructor
  · intro u hu
    rcases register_users_shape p w with h | ⟨uN, h, hm⟩
    · rw [h] at hu
      exact hinv u hu
    · rw [h] at hu
      rcases List.mem_append.mp hu with h1 | h1
      · exact hinv u h1
      · rw [List.mem_singleton] at h1
        subst h1
        exact ⟨false, hm⟩
  · intro u hu
    cases he : w.updateErr with
    | some e =>
      rw [setMetricPref, he] at hu
      exact hinv u hu
    | none =>
      rw [setMetricPref, he] at hu
      dsimp only at hu
      have hu2 : u ∈ w.users.map (fun x =>
          if x.id == uid then applyUpdate (UpdateDoc.setMetric v) w.nextLocId x else x) := hu
      rcases List.mem_map.mp hu2 with ⟨a, ha, rfl⟩
      by_cases hid : (a.id == uid) = true
      · rw [if_pos hid]
        exact ⟨mongooseCastBool v, rfl⟩
      · rw [if_neg hid]
        exact hinv a ha

/-- Witness for C9: the user Register creates for bob holds a boolean
metric, and setting metric to the non-boolean string "maybe" on alice
leaves her record with a boolean metric (the coerced true). -/
theorem metric_invariant_boolean_witness :
    metricIsBool bobUser ∧ metricIsBool { aliceUser with metric := Json.bool true } :=
  ⟨(metric_invariant_boolean bobPayload 0 (JsVal.str "maybe") emptyWorld
      (fun u hu => absurd hu (List.not_mem_nil u))).1 bobUser
      (List.mem_singleton.mpr rfl),
    (metric_invariant_boolean alicePayload 0 (JsVal.str "maybe") aliceWorld
      (by
        intro u hu
        rw [show aliceWorld.users = [aliceUser] from rfl, List.mem_singleton] at hu
        subst hu
        exact ⟨false, rfl⟩)).2 { aliceUser with metric := Json.bool true }
      (List.mem_singleton.mpr rfl)⟩

/-- C10: when the underlying store operation fails, none of the six
store-backed non-Register handlers sends any HTTP response: the three
read handlers throw from their catch branch (the identifier `next` is not
in scope there), the add-location error branch throws calling the
non-existent `console.err`, and the delete-location and set-metric error
branches only log. -/
theorem store_failure_sends_no_response (w : World) (uid : Nat) (name : String)
    (lid : Nat) (v : JsVal) (e1 e2 : Err)
    (hf : w.findErr = some e1) (hu : w.updateErr = some e2) :
    (getUser uid w).outcome = Outcome.thrown "ReferenceError: next is not defined" ∧
    (getLocations uid w).outcome = Outcome.thrown "ReferenceError: next is not defined" ∧
    (getMetric uid w).outcome = Outcome.thrown "ReferenceError: next is not defined" ∧
    (addLocation uid name w).outcome = Outcome.thrown "TypeError: console.err is not a function" ∧
    (removeLocation uid lid w).outcome = Outcome.loggedOnly ∧
    (setMetricPref uid v w).outcome = Outcome.loggedOnly ∧
    (getUser uid w).outcome.isResponse = false ∧
    (getLocations uid w).outcome.isResponse = false ∧
    (getMetric uid w).outcome.isResponse = false ∧
    (addLocation uid name w).outcome.isResponse = false ∧
    (removeLocation uid lid w).outcome.isResponse = false ∧
    (setMetricPref uid v w).outcome.isResponse = false := by
  refine ⟨?_, ?_, ?_, ?_, ?_, ?_, ?_, ?_, ?_, ?_, ?_, ?_⟩ <;>
    simp [getUser, getLocations, getMetric, addLocation, removeLocation, setMetricPref,
      hf, hu, Outcome.isResponse]

/-- Witness for C10: against the store whose operations all fail with a
driver error, the evaluated outcomes of the six handlers. -/
theorem store_failure_sends_no_response_witness :
    failWorld.findErr = some boomErr ∧
    failWorld.updateErr = some boomErr ∧
    (getUser 0 failWorld).outcome = Outcome.thrown "ReferenceError: next is not defined" ∧
    (addLocation 0 "Paris" failWorld).outcome =
      Outcome.thrown "TypeError: console.err is not a function" ∧
    (removeLocation 0 0 failWorld).outcome = Outcome.loggedOnly ∧
    (setMetricPref 0 JsVal.null failWorld).outcome = Outcome.loggedOnly :=
  ⟨rfl, rfl,
    (store_failure_sends_no_response failWorld 0 "Paris" 0 JsVal.null boomErr boomErr
      rfl rfl).1,
    (store_failure_sends_no_response failWorld 0 "Paris" 0 JsVal.null boomErr boomErr
      rfl rfl).2.2.2.1,
    (store_failure_sends_no_response failWorld 0 "Paris" 0 JsVal.null boomErr boomErr
      rfl rfl).2.2.2.2.1,
    (store_failure_sends_no_response failWorld 0 "Paris" 0 JsVal.null boomErr boomErr
      rfl rfl).2.2.2.2.2.1⟩
